import Mathlib

/-!
Verification of the token-lifecycle core of the FastAPI login service
(`src/app/api/v1/login.py`), against its natural-language specification.

Shallow embedding conventions:
* Python `datetime` values (always `timezone.utc`-aware in this code) are
  modelled as `Nat` microseconds since the Unix epoch; `timedelta` values as
  `Nat` microseconds.
* The route handlers become pure functions over explicit parameters: the
  current clock reading for each `datetime.now(timezone.utc)` call, the
  configuration constants, and the injected collaborators.
* Raising an exception becomes returning `Except.error`; the error type
  `AppError` can represent both the `UnauthorizedException` class and any
  other exception class, so that "only unauthorized errors are raised" is a
  provable statement rather than a typing triviality.
-/

/-- A Python `timedelta(minutes=m)`, in microseconds. -/
def timedeltaMinutes (m : Nat) : Nat := m * 60 * 1000000

/-- A Python `timedelta(days=d)`, in microseconds. -/
def timedeltaDays (d : Nat) : Nat := d * 86400 * 1000000

/-- Left-pad the decimal rendering of `n` with zeros to `width` characters.
Models the fixed-width fields of Python date formatting. -/
def padNat (width n : Nat) : String :=
  let s := toString n
  String.mk (List.replicate (width - s.length) '0') ++ s

/-- Civil date (year, month, day) from a count of days since 1970-01-01,
the proleptic-Gregorian conversion used by Python `datetime` (Hinnant
`civil_from_days`, restricted to nonnegative day counts, which covers every
instant this service can ever format). -/
def civilFromDays (z0 : Nat) : Nat × Nat × Nat :=
  let z := z0 + 719468
  let era := z / 146097
  let doe := z % 146097
  let yoe := (doe - doe / 1460 + doe / 36524 - doe / 146096) / 365
  let y := yoe + era * 400
  let doy := doe - (365 * yoe + yoe / 4 - yoe / 100)
  let mp := (5 * doy + 2) / 153
  let d := doy - (153 * mp + 2) / 5 + 1
  let m := if mp < 10 then mp + 3 else mp - 9
  (if m ≤ 2 then y + 1 else y, m, d)

/-- Python `datetime.isoformat()` on a `timezone.utc`-aware datetime: the
date and time separated by `T`, a fractional-seconds field only when the
microsecond component is nonzero, and the UTC offset rendered as `+00:00`.
`t` is microseconds since the Unix epoch. -/
def pyIsoformat (t : Nat) : String :=
  let usec := t % 1000000
  let totalSeconds := t / 1000000
  let secOfDay := totalSeconds % 86400
  let days := totalSeconds / 86400
  let ymd := civilFromDays days
  padNat 4 ymd.1 ++ "-" ++ padNat 2 ymd.2.1 ++ "-" ++ padNat 2 ymd.2.2 ++ "T" ++
    padNat 2 (secOfDay / 3600) ++ ":" ++ padNat 2 (secOfDay % 3600 / 60) ++ ":" ++
    padNat 2 (secOfDay % 60) ++
    (if usec = 0 then "" else "." ++ padNat 6 usec) ++ "+00:00"

/-- The `expires_at` string the routes build: `X.isoformat() + Z` on an
aware UTC datetime `X` (login.py lines 56, 61, 86, 115). -/
def isoformatPlusZ (t : Nat) : String := pyIsoformat t ++ "Z"

/-- Modelled from the spec: the emitted payload shape Token with fields
access_token (string), token_type (the string "bearer") and expires_at
(string, or empty when not applicable to that slot) — spec section 6; the
schema class itself lives outside src/. -/
structure Token where
  access_token : String
  token_type : String
  expires_at : String
deriving Repr, DecidableEq

/-- Modelled from the spec: the emitted payload shape BackendTokens pairing
an access Token with a refresh Token (spec section 6); the schema class
lives outside src/. -/
structure BackendTokens where
  access_token : Token
  refresh_token : Token
deriving Repr, DecidableEq

/-- Modelled from the spec: the emitted payload shape UserDetails with
fields name, username, email and profile_image_url (spec section 6); the
schema class lives outside src/. -/
structure UserDetails where
  name : String
  username : String
  email : String
  profile_image_url : String
deriving Repr, DecidableEq

/-- Modelled from the spec: the login response pairs the user details with
the token pair (spec sections 3 and 6); the schema class lives outside src/. -/
structure LoginResponse where
  user : UserDetails
  backend_tokens : BackendTokens
deriving Repr, DecidableEq

/-- The user record returned by the user-lookup collaborator; the fields are
exactly those the login route reads (login.py lines 39, 47-50). -/
structure UserRecord where
  name : String
  username : String
  email : String
  profile_image_url : String
deriving Repr, DecidableEq

/-- The data `verify_token` resolves for a presented credential; the refresh
route reads its `username_or_email` field (login.py line 107). -/
structure TokenData where
  username_or_email : String
deriving Repr, DecidableEq

/-- An exception surfaced by a route. `unauthorized msg` is the
`UnauthorizedException(msg)` class of the source; `otherError` stands for
every other exception class a handler could in principle raise, so theorems
can assert that no failure uses any class but the unauthorized one. -/
inductive AppError where
  | unauthorized (message : String)
  | otherError (cls : String) (message : String)
deriving Repr, DecidableEq

/-- Python `s.startswith(pre)`: `pre` is a prefix of the characters of
`s`. -/
def pyStartsWith (s pre : String) : Bool := pre.data.isPrefixOf s.data

/-- Split a character list at every dot. -/
def splitDots : List Char → List (List Char)
  | [] => [[]]
  | c :: rest =>
    if c = '.' then [] :: splitDots rest
    else
      match splitDots rest with
      | g :: gs => (c :: g) :: gs
      | [] => [[c]]

/-- Numeric value of a nonempty all-digit character list, none otherwise
(the accumulator starts at 0). -/
def natFromDigits (acc : Nat) : List Char → Option Nat
  | [] => some acc
  | c :: rest =>
    if c.isDigit then natFromDigits (acc * 10 + (c.toNat - 48)) rest else none

/-- Modelled from the spec: the ClaimsCodec encoding (spec section 4.1) —
a self-contained credential carrying a subject identifier and an expiry
instant. The cryptographic signature is outside a shallow embedding, so the
credential is a transparent tagged serialization; unforgeability is not
modelled and no claim here depends on it. `create_access_token`,
`create_refresh_token` and the codec live outside src/. -/
def encodeClaims (sub : String) (exp : Nat) : String :=
  "claims." ++ toString exp ++ "." ++ sub

/-- Modelled from the spec: the ClaimsCodec decoding (spec section 4.1),
recovering subject and expiry from a credential produced by `encodeClaims`
and failing closed on anything else. -/
def decodeClaims (credential : String) : Option (String × Nat) :=
  match splitDots credential.data with
  | [tag, e, sub] =>
    if tag = "claims".data then
      match e with
      | [] => none
      | _ :: _ =>
        match natFromDigits 0 e with
        | some exp => some (String.mk sub, exp)
        | none => none
    else none
  | _ => none

/-- Modelled from the spec: `is_expired(claims, now)` is `now >=
claims.expires_at` (spec section 4.1). -/
def is_expired (exp now : Nat) : Bool := now ≥ exp

/-- Modelled from the spec: `create_access_token(data, expires_delta)`
(TokenIssuer, spec section 4.2) — the claims expire at `now + ttl`, where
`ttl` is the passed `expires_delta` when present and otherwise the issuer
default (which the spec fixes to the configured access-token lifetime; it
is kept as the explicit parameter `defaultTtl` because the issuer lives
outside src/ and claim C10 is about its relation to the route constant). -/
def create_access_token (sub : String) (expires_delta : Option Nat)
    (now defaultTtl : Nat) : String :=
  encodeClaims sub (now + expires_delta.getD defaultTtl)

/-- Modelled from the spec: `create_refresh_token(data)` (TokenIssuer, spec
section 4.2) — expiry at `now` plus the configured refresh lifetime, passed
here as `defaultTtl` since the issuer lives outside src/. -/
def create_refresh_token (sub : String) (now defaultTtl : Nat) : String :=
  encodeClaims sub (now + defaultTtl)

/-- Modelled from the spec: `authenticate_user` (AuthenticationService,
spec section 4.3) — look the user up by username or email through the
collaborator, then verify the password; return none on lookup miss or on
hash mismatch. The function lives outside src/; the collaborator calls are
the injected parameters `findByUsernameOrEmail` and `verifyPassword`. -/
def authenticate_user (findByUsernameOrEmail : String → Option UserRecord)
    (verifyPassword : UserRecord → String → Bool)
    (username_or_email password : String) : Option UserRecord :=
  match findByUsernameOrEmail username_or_email with
  | none => none
  | some user => if verifyPassword user password then some user else none

/-- Modelled from the spec: `verify_token` (TokenVerifier, spec section
4.4) — decode via the codec, reject expired claims via `is_expired`, then
resolve the subject through the user-lookup collaborator. The refresh route
in src/ consumes it with a falsiness test, so every failure (malformed,
expired, unknown subject) surfaces as none. -/
def verify_token (findByUsernameOrEmail : String → Option UserRecord)
    (now : Nat) (credential : String) : Option TokenData :=
  match decodeClaims credential with
  | none => none
  | some (sub, exp) =>
    if is_expired exp now then none
    else
      match findByUsernameOrEmail sub with
      | none => none
      | some _ => some { username_or_email := sub }

/-- The `/login` handler, `login_for_access_token` (login.py lines 26-64).
Parameters: the injected user-lookup collaborator and password check used
by `authenticate_user`; the configuration constants
`ACCESS_TOKEN_EXPIRE_MINUTES` (called `atem` here) and
`settings.REFRESH_TOKEN_EXPIRE_DAYS` (`rted`); the issuer defaults
(`accessDefaultTtl`, `refreshDefaultTtl`, microseconds); the two clock
readings `now1` (line 38) and `now2` (line 43); and the form data. -/
def login_for_access_token
    (findByUsernameOrEmail : String → Option UserRecord)
    (verifyPassword : UserRecord → String → Bool)
    (atem rted accessDefaultTtl refreshDefaultTtl : Nat)
    (now1 now2 : Nat) (username password : String) :
    Except AppError LoginResponse :=
  match authenticate_user findByUsernameOrEmail verifyPassword username password with
  | none => .error (.unauthorized "Wrong username, email or password.")
  | some user =>
    let access_token_expires := timedeltaMinutes atem
    let access_expires_at := now1 + access_token_expires
    let access_token :=
      create_access_token user.username (some access_token_expires) now1 accessDefaultTtl
    let refresh_token := create_refresh_token user.username now2 refreshDefaultTtl
    let refresh_token_expires := timedeltaDays rted
    let refresh_expires_at := now2 + refresh_token_expires
    .ok
      { user :=
          { name := user.name
            username := user.username
            email := user.email
            profile_image_url := user.profile_image_url }
        backend_tokens :=
          { access_token :=
              { access_token := access_token
                token_type := "bearer"
                expires_at := isoformatPlusZ access_expires_at }
            refresh_token :=
              { access_token := refresh_token
                token_type := "bearer"
                expires_at := isoformatPlusZ refresh_expires_at } } }

/-- The `/token` handler, `get_access_token` (login.py lines 69-87), used
by the interactive docs UI; same authentication step as `/login` but the
response is a single access Token. -/
def get_access_token
    (findByUsernameOrEmail : String → Option UserRecord)
    (verifyPassword : UserRecord → String → Bool)
    (atem accessDefaultTtl : Nat) (now : Nat) (username password : String) :
    Except AppError Token :=
  match authenticate_user findByUsernameOrEmail verifyPassword username password with
  | none => .error (.unauthorized "Wrong username, email or password.")
  | some user =>
    let access_token_expires := timedeltaMinutes atem
    let access_expires_at := now + access_token_expires
    let access_token :=
      create_access_token user.username (some access_token_expires) now accessDefaultTtl
    .ok
      { access_token := access_token
        token_type := "bearer"
        expires_at := isoformatPlusZ access_expires_at }

/-- The `/refresh` handler, `refresh_access_token` (login.py lines 90-122).
`authHeader` is `request.headers.get("Authorization")` (none when absent);
`verify` is the injected `verify_token(-, db)` call; `atem` is
`ACCESS_TOKEN_EXPIRE_MINUTES`; `accessDefaultTtl` is the issuer default
used by `create_access_token` when, as here, no `expires_delta` is passed;
`now` is the single `datetime.now(timezone.utc)` reading (line 109),
also used as the issuing instant of the new credential. A Python falsiness
test on a string is an emptiness test, hence the explicit comparisons with
the empty string. -/
def refresh_access_token
    (verify : String → Option TokenData)
    (atem accessDefaultTtl : Nat) (now : Nat)
    (authHeader : Option String) :
    Except AppError BackendTokens :=
  match authHeader with
  | none => .error (.unauthorized "Authorization header missing.")
  | some auth_header =>
    if auth_header = "" then
      .error (.unauthorized "Authorization header missing.")
    else if !pyStartsWith auth_header "Bearer " then
      .error (.unauthorized "Authorization header must start with \x27Bearer \x27")
    else
      let refresh_token := auth_header.drop 7
      if refresh_token = "" then
        .error (.unauthorized "Refresh token missing.")
      else
        match verify refresh_token with
        | none => .error (.unauthorized "Invalid refresh token.")
        | some user_data =>
          let new_access_token :=
            create_access_token user_data.username_or_email none now accessDefaultTtl
          let access_expires_at := now + timedeltaMinutes atem
          .ok
            { access_token :=
                { access_token := new_access_token
                  token_type := "bearer"
                  expires_at := isoformatPlusZ access_expires_at }
              refresh_token :=
                { access_token := refresh_token
                  token_type := "bearer"
                  expires_at := "" } }

/-- Consume exactly `n` decimal digits from the front of `cs`, returning
their value and the rest; fail if a non-digit or the end is hit. -/
def readFixedNat (acc n : Nat) (cs : List Char) : Option (Nat × List Char) :=
  match n, cs with
  | 0, rest => some (acc, rest)
  | _ + 1, [] => none
  | n + 1, c :: rest =>
    if c.isDigit then readFixedNat (acc * 10 + (c.toNat - 48)) n rest else none

/-- Count of leading decimal digits of `cs`, with the remaining characters. -/
def skipDigits : List Char → Nat × List Char
  | [] => (0, [])
  | c :: rest =>
    if c.isDigit then
      let r := skipDigits rest
      (r.1 + 1, r.2)
    else (0, c :: rest)

/-- Consume one expected character from the front of a character list. -/
def expectChar (ch : Char) : List Char → Option (List Char)
  | c :: rest => if c = ch then some rest else none
  | [] => none

/-- Modelled from the spec: a checker for the format the spec promises for
nonempty expires_at values, "timestamp, ISO-8601 with UTC marker" (spec
sections 3 and 6). Accepted shape: `YYYY-MM-DDThh:mm:ss`, an optional
fraction of one to six digits, then exactly one UTC designator — either `Z`
or the zero offset `+00:00` — and nothing after it; fields must be in
calendar range. A string carrying both the offset and a trailing `Z` is not
ISO-8601 and is rejected. -/
def isValidIso8601UTC (s : String) : Bool :=
  let parsed : Option (List Char) := do
    let cs := s.data
    let (_year, cs) ← readFixedNat 0 4 cs
    let cs ← expectChar '-' cs
    let (month, cs) ← readFixedNat 0 2 cs
    let cs ← expectChar '-' cs
    let (day, cs) ← readFixedNat 0 2 cs
    let cs ← expectChar 'T' cs
    let (hour, cs) ← readFixedNat 0 2 cs
    let cs ← expectChar ':' cs
    let (minute, cs) ← readFixedNat 0 2 cs
    let cs ← expectChar ':' cs
    let (second, cs) ← readFixedNat 0 2 cs
    let cs ←
      match cs with
      | '.' :: rest =>
        let r := skipDigits rest
        if 1 ≤ r.1 ∧ r.1 ≤ 6 then some r.2 else none
      | rest => some rest
    if 1 ≤ month ∧ month ≤ 12 ∧ 1 ≤ day ∧ day ≤ 31 ∧
        hour ≤ 23 ∧ minute ≤ 59 ∧ second ≤ 59 then
      some cs
    else none
  match parsed with
  | none => false
  | some rest => rest = ['Z'] || rest = ['+', '0', '0', ':', '0', '0']

/-- A sample user record, used to instantiate theorems at concrete
inputs. -/
def sampleUser : UserRecord :=
  { name := "Alice Doe"
    username := "alice"
    email := "alice@example.com"
    profile_image_url := "https://img.example/alice.png" }

/-- A sample user-lookup collaborator knowing exactly `sampleUser`. -/
def sampleFindBy : String → Option UserRecord :=
  fun s => if s = "alice" then some sampleUser else none

/-- A sample password check: the stored credential of every user hashes
the password `correct-horse`. -/
def samplePasswordCheck : UserRecord → String → Bool :=
  fun _ password => password = "correct-horse"

/-- A sample verifier accepting the credential `tok123` for the subject
`alice`. -/
def sampleVerify : String → Option TokenData :=
  fun s => if s = "tok123" then some { username_or_email := "alice" } else none

/-!
Theorems: each claim of the specification is settled below; every theorem
is stated against the route-handler embeddings above.
-/

/-- Evaluation of the login handler on any authenticated user: the shape
returned by lines 45-64 of login.py. Shared helper for the login claims. -/
theorem login_for_access_token_authenticated
    (findBy : String → Option UserRecord) (vp : UserRecord → String → Bool)
    (atem rted ad rd now1 now2 : Nat) (username password : String)
    (u : UserRecord)
    (hauth : authenticate_user findBy vp username password = some u) :
    login_for_access_token findBy vp atem rted ad rd now1 now2 username password =
      Except.ok
        { user :=
            { name := u.name, username := u.username, email := u.email,
              profile_image_url := u.profile_image_url }
          backend_tokens :=
            { access_token :=
                { access_token :=
                    create_access_token u.username (some (timedeltaMinutes atem)) now1 ad
                  token_type := "bearer"
                  expires_at := isoformatPlusZ (now1 + timedeltaMinutes atem) }
              refresh_token :=
                { access_token := create_refresh_token u.username now2 rd
                  token_type := "bearer"
                  expires_at := isoformatPlusZ (now2 + timedeltaDays rted) } } } := by
  simp [login_for_access_token, hauth]

/-- Evaluation of the token handler on any authenticated user: the shape
returned by lines 83-87 of login.py. Shared helper. -/
theorem get_access_token_authenticated
    (findBy : String → Option UserRecord) (vp : UserRecord → String → Bool)
    (atem ad now : Nat) (username password : String) (u : UserRecord)
    (hauth : authenticate_user findBy vp username password = some u) :
    get_access_token findBy vp atem ad now username password =
      Except.ok
        { access_token :=
            create_access_token u.username (some (timedeltaMinutes atem)) now ad
          token_type := "bearer"
          expires_at := isoformatPlusZ (now + timedeltaMinutes atem) } := by
  simp [get_access_token, hauth]

/-- Evaluation of the refresh handler on any verified credential: the shape
returned by lines 111-122 of login.py. Shared helper. -/
theorem refresh_access_token_verified
    (verify : String → Option TokenData) (atem d now : Nat)
    (hdr : String) (u : TokenData)
    (hpre : pyStartsWith hdr "Bearer " = true)
    (htok : hdr.drop 7 ≠ "")
    (hv : verify (hdr.drop 7) = some u) :
    refresh_access_token verify atem d now (some hdr) =
      Except.ok
        { access_token :=
            { access_token := create_access_token u.username_or_email none now d
              token_type := "bearer"
              expires_at := isoformatPlusZ (now + timedeltaMinutes atem) }
          refresh_token :=
            { access_token := hdr.drop 7
              token_type := "bearer"
              expires_at := "" } } := by
  have hne : hdr ≠ "" := by
    intro e
    rw [e] at hpre
    exact absurd hpre (by decide)
  simp [refresh_access_token, hne, hpre, htok, hv]

/-- C3: the claim says every nonempty expires_at string emitted by login,
token or refresh is a valid ISO-8601 timestamp carrying a UTC marker. It is
false on the code: the handlers build `X.isoformat() + Z` on a
timezone-aware datetime, and `isoformat` already renders the `+00:00`
offset, so the emitted string carries both a numeric offset and a `Z`
suffix — for example `2023-11-14T22:28:20+00:00Z` — which is not ISO-8601
(exactly one UTC designator is allowed). Either the offset or the appended
`Z` alone would be valid, as the last two conjuncts show. -/
theorem token_expires_at_is_malformed_iso8601 :
    get_access_token
        (fun s =>
          if s = "alice" then
            some { name := "Alice Doe", username := "alice",
                   email := "alice@example.com",
                   profile_image_url := "https://img.example/alice.png" }
          else none)
        (fun _ password => password = "correct-horse")
        15 (timedeltaMinutes 15) 1700000000000000 "alice" "correct-horse" =
      Except.ok
        { access_token := "claims.1700000900000000.alice"
          token_type := "bearer"
          expires_at := "2023-11-14T22:28:20+00:00Z" } ∧
    isValidIso8601UTC "2023-11-14T22:28:20+00:00Z" = false ∧
    isValidIso8601UTC "2023-11-14T22:28:20+00:00" = true ∧
    isValidIso8601UTC "2023-11-14T22:28:20Z" = true :=
  ⟨rfl, by decide, by decide, by decide⟩

/-- C1: whenever the presented refresh credential passes verification, the
refresh handler returns a BackendTokens pair whose access token is newly
issued for the verified subject, and whose refresh token carries exactly
the credential string presented after stripping the 7-character
`Bearer ` prefix, with an empty expires_at field. -/
theorem refresh_echoes_presented_token
    (verify : String → Option TokenData) (atem d now : Nat)
    (hdr : String) (u : TokenData)
    (hpre : pyStartsWith hdr "Bearer " = true)
    (htok : hdr.drop 7 ≠ "")
    (hv : verify (hdr.drop 7) = some u) :
    refresh_access_token verify atem d now (some hdr) =
      Except.ok
        { access_token :=
            { access_token := create_access_token u.username_or_email none now d
              token_type := "bearer"
              expires_at := isoformatPlusZ (now + timedeltaMinutes atem) }
          refresh_token :=
            { access_token := hdr.drop 7
              token_type := "bearer"
              expires_at := "" } } :=
  refresh_access_token_verified verify atem d now hdr u hpre htok hv

/-- Witness for C1 at a concrete input: a verifier that accepts the
credential `tok123` for subject `alice`. -/
theorem refresh_echoes_presented_token_witness :
    refresh_access_token
        (fun s => if s = "tok123" then some { username_or_email := "alice" } else none)
        15 (timedeltaMinutes 15) 1700000000000000 (some "Bearer tok123") =
      Except.ok
        { access_token :=
            { access_token := "claims.1700000900000000.alice"
              token_type := "bearer"
              expires_at := "2023-11-14T22:28:20+00:00Z" }
          refresh_token :=
            { access_token := "tok123", token_type := "bearer", expires_at := "" } } :=
  refresh_echoes_presented_token
    (fun s => if s = "tok123" then some { username_or_email := "alice" } else none)
    15 (timedeltaMinutes 15) 1700000000000000 "Bearer tok123"
    { username_or_email := "alice" } (by decide) (by decide) (by decide)

/-- C7: whenever the verifier resolves no user data for the presented
credential, the refresh handler rejects with the invalid-token
unauthorized failure and returns no token pair. -/
theorem refresh_rejects_unverified_token
    (verify : String → Option TokenData) (atem d now : Nat) (hdr : String)
    (hpre : pyStartsWith hdr "Bearer " = true)
    (htok : hdr.drop 7 ≠ "")
    (hv : verify (hdr.drop 7) = none) :
    refresh_access_token verify atem d now (some hdr) =
      Except.error (AppError.unauthorized "Invalid refresh token.") ∧
    ∀ bt : BackendTokens,
      refresh_access_token verify atem d now (some hdr) ≠ Except.ok bt := by
  have hne : hdr ≠ "" := by
    intro e
    rw [e] at hpre
    exact absurd hpre (by decide)
  have heq : refresh_access_token verify atem d now (some hdr) =
      Except.error (AppError.unauthorized "Invalid refresh token.") := by
    simp [refresh_access_token, hne, hpre, htok, hv]
  exact ⟨heq, fun bt hok => by rw [heq] at hok; exact Except.noConfusion hok⟩

/-- Witness for C7 at a concrete input: a verifier that resolves nothing. -/
theorem refresh_rejects_unverified_token_witness :
    refresh_access_token (fun _ => none) 15 (timedeltaMinutes 15) 1700000000000000
        (some "Bearer expired-or-forged") =
      Except.error (AppError.unauthorized "Invalid refresh token.") ∧
    ∀ bt : BackendTokens,
      refresh_access_token (fun _ => none) 15 (timedeltaMinutes 15) 1700000000000000
          (some "Bearer expired-or-forged") ≠ Except.ok bt :=
  refresh_rejects_unverified_token (fun _ => none) 15 (timedeltaMinutes 15)
    1700000000000000 "Bearer expired-or-forged" (by decide) (by decide) rfl

/-- C9: a successful login pairs a UserDetails record whose name, username,
email and profile_image_url come from the authenticated user with a
BackendTokens record holding an access and a refresh token, and both
emitted tokens carry token_type "bearer". -/
theorem login_pairs_identity_with_bearer_tokens
    (findBy : String → Option UserRecord) (vp : UserRecord → String → Bool)
    (atem rted ad rd now1 now2 : Nat) (username password : String)
    (u : UserRecord)
    (hauth : authenticate_user findBy vp username password = some u) :
    ∃ resp : LoginResponse,
      login_for_access_token findBy vp atem rted ad rd now1 now2 username password =
        Except.ok resp ∧
      resp.user =
        { name := u.name, username := u.username, email := u.email,
          profile_image_url := u.profile_image_url } ∧
      resp.backend_tokens.access_token.token_type = "bearer" ∧
      resp.backend_tokens.refresh_token.token_type = "bearer" :=
  ⟨_, login_for_access_token_authenticated findBy vp atem rted ad rd now1 now2
        username password u hauth, rfl, rfl, rfl⟩

/-- Witness for C9 at a concrete input. -/
theorem login_pairs_identity_with_bearer_tokens_witness :
    ∃ resp : LoginResponse,
      login_for_access_token sampleFindBy samplePasswordCheck 15 7
          (timedeltaMinutes 15) (timedeltaDays 7)
          1700000000000000 1700000000000000 "alice" "correct-horse" =
        Except.ok resp ∧
      resp.user =
        { name := "Alice Doe", username := "alice", email := "alice@example.com",
          profile_image_url := "https://img.example/alice.png" } ∧
      resp.backend_tokens.access_token.token_type = "bearer" ∧
      resp.backend_tokens.refresh_token.token_type = "bearer" :=
  login_pairs_identity_with_bearer_tokens sampleFindBy samplePasswordCheck 15 7
    (timedeltaMinutes 15) (timedeltaDays 7) 1700000000000000 1700000000000000
    "alice" "correct-horse" sampleUser (by decide)

/-- C5: the reported access expires_at is the rendering of the issuance
instant plus the configured access lifetime in minutes, and the reported
refresh expires_at is the rendering of the issuance instant plus the
configured refresh lifetime in days (`now1` and `now2` are the clock
readings of login.py lines 38 and 43). -/
theorem login_expiry_equals_now_plus_configured_ttl
    (findBy : String → Option UserRecord) (vp : UserRecord → String → Bool)
    (atem rted ad rd now1 now2 : Nat) (username password : String)
    (u : UserRecord)
    (hauth : authenticate_user findBy vp username password = some u) :
    ∃ resp : LoginResponse,
      login_for_access_token findBy vp atem rted ad rd now1 now2 username password =
        Except.ok resp ∧
      resp.backend_tokens.access_token.expires_at =
        isoformatPlusZ (now1 + timedeltaMinutes atem) ∧
      resp.backend_tokens.refresh_token.expires_at =
        isoformatPlusZ (now2 + timedeltaDays rted) :=
  ⟨_, login_for_access_token_authenticated findBy vp atem rted ad rd now1 now2
        username password u hauth, rfl, rfl⟩

/-- Witness for C5 at a concrete input: fifteen minutes and seven days
from 2023-11-14T22:13:20 UTC. -/
theorem login_expiry_equals_now_plus_configured_ttl_witness :
    ∃ resp : LoginResponse,
      login_for_access_token sampleFindBy samplePasswordCheck 15 7
          (timedeltaMinutes 15) (timedeltaDays 7)
          1700000000000000 1700000000000000 "alice" "correct-horse" =
        Except.ok resp ∧
      resp.backend_tokens.access_token.expires_at = "2023-11-14T22:28:20+00:00Z" ∧
      resp.backend_tokens.refresh_token.expires_at = "2023-11-21T22:13:20+00:00Z" :=
  login_expiry_equals_now_plus_configured_ttl sampleFindBy samplePasswordCheck 15 7
    (timedeltaMinutes 15) (timedeltaDays 7) 1700000000000000 1700000000000000
    "alice" "correct-horse" sampleUser (by decide)

/-- C6: under positive configured lifetimes, every token issued by the
login, token and refresh handlers reports an expiry instant strictly later
than its issuance instant (the echoed refresh credential in a refresh
response is not issued there and carries an empty expiry). -/
theorem issued_expiry_strictly_after_issuance
    (findBy : String → Option UserRecord) (vp : UserRecord → String → Bool)
    (verify : String → Option TokenData)
    (atem rted ad rd now1 now2 now3 now4 : Nat)
    (username password hdr : String) (u : UserRecord) (td : TokenData)
    (hA : 0 < atem) (hR : 0 < rted)
    (hauth : authenticate_user findBy vp username password = some u)
    (hpre : pyStartsWith hdr "Bearer " = true)
    (htok : hdr.drop 7 ≠ "")
    (hv : verify (hdr.drop 7) = some td) :
    (∃ resp : LoginResponse,
      login_for_access_token findBy vp atem rted ad rd now1 now2 username password =
        Except.ok resp ∧
      resp.backend_tokens.access_token.expires_at =
        isoformatPlusZ (now1 + timedeltaMinutes atem) ∧
      now1 < now1 + timedeltaMinutes atem ∧
      resp.backend_tokens.refresh_token.expires_at =
        isoformatPlusZ (now2 + timedeltaDays rted) ∧
      now2 < now2 + timedeltaDays rted) ∧
    (∃ tk : Token,
      get_access_token findBy vp atem ad now3 username password = Except.ok tk ∧
      tk.expires_at = isoformatPlusZ (now3 + timedeltaMinutes atem) ∧
      now3 < now3 + timedeltaMinutes atem) ∧
    (∃ bt : BackendTokens,
      refresh_access_token verify atem ad now4 (some hdr) = Except.ok bt ∧
      bt.access_token.expires_at = isoformatPlusZ (now4 + timedeltaMinutes atem) ∧
      now4 < now4 + timedeltaMinutes atem) := by
  have hm : 0 < timedeltaMinutes atem :=
    Nat.mul_pos (Nat.mul_pos hA (by norm_num)) (by norm_num)
  have hdy : 0 < timedeltaDays rted :=
    Nat.mul_pos (Nat.mul_pos hR (by norm_num)) (by norm_num)
  refine
    ⟨⟨_, login_for_access_token_authenticated findBy vp atem rted ad rd now1 now2
          username password u hauth,
        rfl, Nat.lt_add_of_pos_right hm, rfl, Nat.lt_add_of_pos_right hdy⟩,
      ⟨_, get_access_token_authenticated findBy vp atem ad now3 username password u hauth,
        rfl, Nat.lt_add_of_pos_right hm⟩,
      ⟨_, refresh_access_token_verified verify atem ad now4 hdr td hpre htok hv,
        rfl, Nat.lt_add_of_pos_right hm⟩⟩

/-- Witness for C6 at a concrete input: lifetimes of 15 minutes and 7 days
are positive, and all four issued tokens expire strictly after issuance. -/
theorem issued_expiry_strictly_after_issuance_witness :
    (∃ resp : LoginResponse,
      login_for_access_token sampleFindBy samplePasswordCheck 15 7
          (timedeltaMinutes 15) (timedeltaDays 7)
          1700000000000000 1700000000000000 "alice" "correct-horse" =
        Except.ok resp ∧
      resp.backend_tokens.access_token.expires_at =
        isoformatPlusZ (1700000000000000 + timedeltaMinutes 15) ∧
      1700000000000000 < 1700000000000000 + timedeltaMinutes 15 ∧
      resp.backend_tokens.refresh_token.expires_at =
        isoformatPlusZ (1700000000000000 + timedeltaDays 7) ∧
      1700000000000000 < 1700000000000000 + timedeltaDays 7) ∧
    (∃ tk : Token,
      get_access_token sampleFindBy samplePasswordCheck 15 (timedeltaMinutes 15)
          1700000000000000 "alice" "correct-horse" = Except.ok tk ∧
      tk.expires_at = isoformatPlusZ (1700000000000000 + timedeltaMinutes 15) ∧
      1700000000000000 < 1700000000000000 + timedeltaMinutes 15) ∧
    (∃ bt : BackendTokens,
      refresh_access_token sampleVerify 15 (timedeltaMinutes 15) 1700000000000000
          (some "Bearer tok123") = Except.ok bt ∧
      bt.access_token.expires_at = isoformatPlusZ (1700000000000000 + timedeltaMinutes 15) ∧
      1700000000000000 < 1700000000000000 + timedeltaMinutes 15) :=
  issued_expiry_strictly_after_issuance sampleFindBy samplePasswordCheck sampleVerify
    15 7 (timedeltaMinutes 15) (timedeltaDays 7)
    1700000000000000 1700000000000000 1700000000000000 1700000000000000
    "alice" "correct-horse" "Bearer tok123" sampleUser { username_or_email := "alice" }
    (by decide) (by decide) (by decide) (by decide) (by decide) (by decide)

/-- C2: the four refresh failure scenarios — absent header, header not
starting with the `Bearer ` prefix, empty remainder after the prefix, and
an expired refresh token — each produce their own reported reason, and the
four reported failures are pairwise distinct. The expired scenario goes
through the spec-modelled verifier, whose failure the route reports as the
invalid-token reason (login.py line 105). -/
theorem refresh_failure_reasons_distinct
    (findBy : String → Option UserRecord) (atem d now : Nat)
    (h2 : String) (hne2 : h2 ≠ "") (hns2 : pyStartsWith h2 "Bearer " = false)
    (hdr4 : String) (hpre4 : pyStartsWith hdr4 "Bearer " = true)
    (htok4 : hdr4.drop 7 ≠ "")
    (sub : String) (expi : Nat)
    (hdec : decodeClaims (hdr4.drop 7) = some (sub, expi))
    (hexp : expi ≤ now) :
    refresh_access_token (verify_token findBy now) atem d now none =
      Except.error (AppError.unauthorized "Authorization header missing.") ∧
    refresh_access_token (verify_token findBy now) atem d now (some h2) =
      Except.error
        (AppError.unauthorized "Authorization header must start with \x27Bearer \x27") ∧
    refresh_access_token (verify_token findBy now) atem d now (some "Bearer ") =
      Except.error (AppError.unauthorized "Refresh token missing.") ∧
    refresh_access_token (verify_token findBy now) atem d now (some hdr4) =
      Except.error (AppError.unauthorized "Invalid refresh token.") ∧
    (AppError.unauthorized "Authorization header missing." ≠
      AppError.unauthorized "Authorization header must start with \x27Bearer \x27") ∧
    (AppError.unauthorized "Authorization header missing." ≠
      AppError.unauthorized "Refresh token missing.") ∧
    (AppError.unauthorized "Authorization header missing." ≠
      AppError.unauthorized "Invalid refresh token.") ∧
    (AppError.unauthorized "Authorization header must start with \x27Bearer \x27" ≠
      AppError.unauthorized "Refresh token missing.") ∧
    (AppError.unauthorized "Authorization header must start with \x27Bearer \x27" ≠
      AppError.unauthorized "Invalid refresh token.") ∧
    (AppError.unauthorized "Refresh token missing." ≠
      AppError.unauthorized "Invalid refresh token.") := by
  have hvt : verify_token findBy now (hdr4.drop 7) = none := by
    simp [verify_token, hdec, is_expired, hexp]
  have hne4 : hdr4 ≠ "" := by
    intro e
    rw [e] at hpre4
    exact absurd hpre4 (by decide)
  refine ⟨rfl, ?_, rfl, ?_, by decide, by decide, by decide, by decide, by decide,
    by decide⟩
  · simp [refresh_access_token, hne2, hns2]
  · simp [refresh_access_token, hne4, hpre4, htok4, hvt]

/-- Witness for C2 at concrete inputs: no header, header `Token xyz`,
header `Bearer ` with empty remainder, and a credential whose claims
expired at instant 1000 presented at instant 2000. -/
theorem refresh_failure_reasons_distinct_witness :
    refresh_access_token (verify_token sampleFindBy 2000) 15 1 2000 none =
      Except.error (AppError.unauthorized "Authorization header missing.") ∧
    refresh_access_token (verify_token sampleFindBy 2000) 15 1 2000 (some "Token xyz") =
      Except.error
        (AppError.unauthorized "Authorization header must start with \x27Bearer \x27") ∧
    refresh_access_token (verify_token sampleFindBy 2000) 15 1 2000 (some "Bearer ") =
      Except.error (AppError.unauthorized "Refresh token missing.") ∧
    refresh_access_token (verify_token sampleFindBy 2000) 15 1 2000
        (some "Bearer claims.1000.alice") =
      Except.error (AppError.unauthorized "Invalid refresh token.") ∧
    (AppError.unauthorized "Authorization header missing." ≠
      AppError.unauthorized "Authorization header must start with \x27Bearer \x27") ∧
    (AppError.unauthorized "Authorization header missing." ≠
      AppError.unauthorized "Refresh token missing.") ∧
    (AppError.unauthorized "Authorization header missing." ≠
      AppError.unauthorized "Invalid refresh token.") ∧
    (AppError.unauthorized "Authorization header must start with \x27Bearer \x27" ≠
      AppError.unauthorized "Refresh token missing.") ∧
    (AppError.unauthorized "Authorization header must start with \x27Bearer \x27" ≠
      AppError.unauthorized "Invalid refresh token.") ∧
    (AppError.unauthorized "Refresh token missing." ≠
      AppError.unauthorized "Invalid refresh token.") :=
  refresh_failure_reasons_distinct sampleFindBy 15 1 2000
    "Token xyz" (by decide) (by decide)
    "Bearer claims.1000.alice" (by decide) (by decide)
    "alice" 1000 (by decide) (by decide)

/-- C4: a lookup miss and a found-user-with-wrong-password both make the
spec-modelled `authenticate_user` return none, and the login handler then
reports the identical unauthorized failure — same class, same message — in
the two scenarios. -/
theorem login_failure_modes_indistinguishable
    (findBy1 findBy2 : String → Option UserRecord)
    (vp1 vp2 : UserRecord → String → Bool)
    (atem rted ad rd now1 now2 : Nat)
    (s1 p1 s2 p2 : String) (u : UserRecord)
    (hmiss : findBy1 s1 = none)
    (hfound : findBy2 s2 = some u) (hpw : vp2 u p2 = false) :
    authenticate_user findBy1 vp1 s1 p1 = none ∧
    authenticate_user findBy2 vp2 s2 p2 = none ∧
    login_for_access_token findBy1 vp1 atem rted ad rd now1 now2 s1 p1 =
      Except.error (AppError.unauthorized "Wrong username, email or password.") ∧
    login_for_access_token findBy2 vp2 atem rted ad rd now1 now2 s2 p2 =
      Except.error (AppError.unauthorized "Wrong username, email or password.") ∧
    login_for_access_token findBy1 vp1 atem rted ad rd now1 now2 s1 p1 =
      login_for_access_token findBy2 vp2 atem rted ad rd now1 now2 s2 p2 := by
  have h1 : authenticate_user findBy1 vp1 s1 p1 = none := by
    simp [authenticate_user, hmiss]
  have h2 : authenticate_user findBy2 vp2 s2 p2 = none := by
    simp [authenticate_user, hfound, hpw]
  have l1 : login_for_access_token findBy1 vp1 atem rted ad rd now1 now2 s1 p1 =
      Except.error (AppError.unauthorized "Wrong username, email or password.") := by
    simp [login_for_access_token, h1]
  have l2 : login_for_access_token findBy2 vp2 atem rted ad rd now1 now2 s2 p2 =
      Except.error (AppError.unauthorized "Wrong username, email or password.") := by
    simp [login_for_access_token, h2]
  exact ⟨h1, h2, l1, l2, l1.trans l2.symm⟩

/-- Witness for C4 at concrete inputs: `bob` is unknown to the lookup, and
`alice` exists but presents a wrong password; the two login outcomes are
the same unauthorized failure. -/
theorem login_failure_modes_indistinguishable_witness :
    authenticate_user sampleFindBy samplePasswordCheck "bob" "correct-horse" = none ∧
    authenticate_user sampleFindBy samplePasswordCheck "alice" "wrong-password" = none ∧
    login_for_access_token sampleFindBy samplePasswordCheck 15 7 1 2 3 4
        "bob" "correct-horse" =
      Except.error (AppError.unauthorized "Wrong username, email or password.") ∧
    login_for_access_token sampleFindBy samplePasswordCheck 15 7 1 2 3 4
        "alice" "wrong-password" =
      Except.error (AppError.unauthorized "Wrong username, email or password.") ∧
    login_for_access_token sampleFindBy samplePasswordCheck 15 7 1 2 3 4
        "bob" "correct-horse" =
      login_for_access_token sampleFindBy samplePasswordCheck 15 7 1 2 3 4
        "alice" "wrong-password" :=
  login_failure_modes_indistinguishable sampleFindBy sampleFindBy
    samplePasswordCheck samplePasswordCheck 15 7 1 2 3 4
    "bob" "correct-horse" "alice" "wrong-password" sampleUser
    (by decide) (by decide) (by decide)

/-- C8: every failure any of the three handlers can produce is the single
unauthorized error class carrying one of the internal reason messages; no
execution surfaces an error of any other class. -/
theorem failures_are_single_unauthorized_class
    (findBy : String → Option UserRecord) (vp : UserRecord → String → Bool)
    (verify : String → Option TokenData)
    (atem rted ad rd now1 now2 now3 now4 : Nat)
    (username password : String) (hdr : Option String) (e1 e2 e3 : AppError) :
    (login_for_access_token findBy vp atem rted ad rd now1 now2 username password =
        Except.error e1 →
      e1 = AppError.unauthorized "Wrong username, email or password.") ∧
    (get_access_token findBy vp atem ad now3 username password = Except.error e2 →
      e2 = AppError.unauthorized "Wrong username, email or password.") ∧
    (refresh_access_token verify atem ad now4 hdr = Except.error e3 →
      e3 = AppError.unauthorized "Authorization header missing." ∨
      e3 = AppError.unauthorized "Authorization header must start with \x27Bearer \x27" ∨
      e3 = AppError.unauthorized "Refresh token missing." ∨
      e3 = AppError.unauthorized "Invalid refresh token.") := by
  refine ⟨?_, ?_, ?_⟩
  · intro h
    simp only [login_for_access_token] at h
    split at h
    · injection h with h
      exact h.symm
    · exact Except.noConfusion h
  · intro h
    simp only [get_access_token] at h
    split at h
    · injection h with h
      exact h.symm
    · exact Except.noConfusion h
  · intro h
    simp only [refresh_access_token] at h
    split at h
    · injection h with h
      exact Or.inl h.symm
    · split at h
      · injection h with h
        exact Or.inl h.symm
      · split at h
        · injection h with h
          exact Or.inr (Or.inl h.symm)
        · split at h
          · injection h with h
            exact Or.inr (Or.inr (Or.inl h.symm))
          · split at h
            · injection h with h
              exact Or.inr (Or.inr (Or.inr h.symm))
            · exact Except.noConfusion h

/-- Witness for C8 at a concrete input: a refresh call without a header
fails, and its error is one of the unauthorized reasons. -/
theorem failures_are_single_unauthorized_class_witness :
    refresh_access_token (fun _ => none) 15 1 0 none =
      Except.error (AppError.unauthorized "Authorization header missing.") ∧
    (AppError.unauthorized "Authorization header missing." =
        AppError.unauthorized "Authorization header missing." ∨
      AppError.unauthorized "Authorization header missing." =
        AppError.unauthorized "Authorization header must start with \x27Bearer \x27" ∨
      AppError.unauthorized "Authorization header missing." =
        AppError.unauthorized "Refresh token missing." ∨
      AppError.unauthorized "Authorization header missing." =
        AppError.unauthorized "Invalid refresh token.") :=
  ⟨rfl,
    (failures_are_single_unauthorized_class (fun _ => none) (fun _ _ => false)
        (fun _ => none) 15 7 1 2 0 0 0 0 "x" "y" none
        (AppError.unauthorized "Wrong username, email or password.")
        (AppError.unauthorized "Wrong username, email or password.")
        (AppError.unauthorized "Authorization header missing.")).2.2 rfl⟩

/-- C10: on a successful refresh, the new access credential is created
without an explicit expiry delta, so its embedded claims expire at the
issuing instant plus the issuer default lifetime `d`, while the expires_at
string reported next to it renders the instant `now` plus
ACCESS_TOKEN_EXPIRE_MINUTES minutes; the two instants agree exactly when
the issuer default equals the minutes-scale route constant. -/
theorem refresh_credential_vs_reported_expiry
    (verify : String → Option TokenData) (atem d now : Nat)
    (hdr : String) (u : TokenData)
    (hpre : pyStartsWith hdr "Bearer " = true)
    (htok : hdr.drop 7 ≠ "")
    (hv : verify (hdr.drop 7) = some u) :
    ∃ bt : BackendTokens,
      refresh_access_token verify atem d now (some hdr) = Except.ok bt ∧
      bt.access_token.access_token = encodeClaims u.username_or_email (now + d) ∧
      bt.access_token.expires_at = isoformatPlusZ (now + timedeltaMinutes atem) ∧
      ((now + d = now + timedeltaMinutes atem) ↔ d = timedeltaMinutes atem) := by
  refine ⟨_, refresh_access_token_verified verify atem d now hdr u hpre htok hv,
    rfl, rfl, ?_⟩
  omega

/-- Witness for C10 at a concrete input: with an issuer default of 30
minutes against a route constant of 15 minutes, the credential expiry and
the reported expiry are the instants 30 and 15 minutes out
respectively. -/
theorem refresh_credential_vs_reported_expiry_witness :
    ∃ bt : BackendTokens,
      refresh_access_token sampleVerify 15 (timedeltaMinutes 30) 1700000000000000
          (some "Bearer tok123") = Except.ok bt ∧
      bt.access_token.access_token =
        encodeClaims "alice" (1700000000000000 + timedeltaMinutes 30) ∧
      bt.access_token.expires_at =
        isoformatPlusZ (1700000000000000 + timedeltaMinutes 15) ∧
      ((1700000000000000 + timedeltaMinutes 30 =
          1700000000000000 + timedeltaMinutes 15) ↔
        timedeltaMinutes 30 = timedeltaMinutes 15) :=
  refresh_credential_vs_reported_expiry sampleVerify 15 (timedeltaMinutes 30)
    1700000000000000 "Bearer tok123" { username_or_email := "alice" }
    (by decide) (by decide) (by decide)
